import Mathlib

/-!
Shallow embedding of `src/cli/jl_exports.h` (Julia's libjulia re-export
shim).  The header expands curated symbol lists (supplied by the
`.inc` files, external to this file) through C preprocessor macros,
producing:

* exported declarations for data pointers, data symbols and functions;
* hidden indirection slots `name_addr = &name` for runtime- and
  codegen-exported functions (plus the special Windows personality slot);
* exported, uninitialized slots for the `JL_RUNTIME_EXPORTED_FUNC_ADDRS`
  category;
* two pairs of parallel, NULL-terminated registries of names and slot
  addresses.

We model a build configuration as the contents of those curated lists
together with the two relevant preprocessor conditions (`_OS_WINDOWS_`
and `HAVE_SSP`), and each generated section of the header as a function
of that configuration.  Linkage (JL_DLLEXPORT vs JL_HIDDEN) is recorded
on every emitted variable/slot, and symbolic addresses (`&name`, NULL)
stand in for machine addresses.
-/

namespace JlExports

/-- Linkage of an emitted symbol: `JL_DLLEXPORT` or `JL_HIDDEN`. -/
inductive Linkage where
  | exported : Linkage
  | hidden : Linkage
deriving DecidableEq, Repr

/-- A symbolic build-time address: either the address `&name` of a linked
symbol, or the NULL pointer. -/
inductive Addr where
  | ofFunc : String → Addr
  | null : Addr
deriving DecidableEq, Repr

/-- One emitted function-pointer slot: its symbol name, its linkage and
its static initializer (`none` means the slot carries no initializer). -/
structure SlotDef where
  slotName : String
  linkage : Linkage
  init : Option Addr
deriving DecidableEq, Repr

/-- One emitted data variable declaration (name and linkage). -/
structure VarDecl where
  name : String
  linkage : Linkage
deriving DecidableEq, Repr

/-- A build configuration: the curated symbol lists brought in from
`jl_exported_data.inc` / `jl_exported_funcs.inc`, plus the preprocessor
conditions `_OS_WINDOWS_` and `HAVE_SSP`. -/
structure ExportConfig where
  dataPointers : List String
  dataPointersWin : List String
  dataSymbols : List String
  dataSymbolsWin : List String
  runtimeFuncs : List String
  runtimeFuncsWin : List String
  runtimeFuncAddrs : List String
  codegenFuncs : List String
  windows : Bool
  haveSSP : Bool
deriving Repr

/-- Lines 8-14: `JL_DLLEXPORT const void * name;` for every exported data
pointer (Windows list appended under `_OS_WINDOWS_`). -/
def dataPointerDecls (c : ExportConfig) : List VarDecl :=
  (c.dataPointers ++ if c.windows then c.dataPointersWin else []).map
    (fun n => ⟨n, Linkage.exported⟩)

/-- Lines 16-22: `JL_DLLEXPORT type name;` for every exported data symbol
(Windows list appended under `_OS_WINDOWS_`). -/
def dataSymbolDecls (c : ExportConfig) : List VarDecl :=
  (c.dataSymbols ++ if c.windows then c.dataSymbolsWin else []).map
    (fun n => ⟨n, Linkage.exported⟩)

/-- Lines 24-26: `#ifndef HAVE_SSP  JL_DLLEXPORT size_t __stack_chk_guard;`
The fallback stack guard is emitted only when `HAVE_SSP` is undefined,
and the source marks it `JL_DLLEXPORT`. -/
def stackChkGuardDecls (c : ExportConfig) : List VarDecl :=
  if c.haveSSP then [] else [⟨"__stack_chk_guard", Linkage.exported⟩]

/-- Lines 28-38: `JL_DLLEXPORT void name(void);` for every runtime-exported
function, the Windows extension list and `__julia_personality` under
`_OS_WINDOWS_`, then every codegen-exported function. -/
def funcDecls (c : ExportConfig) : List String :=
  c.runtimeFuncs
    ++ (if c.windows then c.runtimeFuncsWin ++ ["__julia_personality"] else [])
    ++ c.codegenFuncs

/-- Lines 40-48: `JL_HIDDEN anonfunc * name##_addr = (anonfunc*)&name;`
expanded over the runtime-exported list, then (under `_OS_WINDOWS_`) the
Windows extension list and the explicit
`JL_HIDDEN anonfunc * __julia_personality_addr = NULL;`, then the
codegen-exported list. -/
def slotDefs (c : ExportConfig) : List SlotDef :=
  c.runtimeFuncs.map (fun n => ⟨n ++ "_addr", Linkage.hidden, some (Addr.ofFunc n)⟩)
    ++ (if c.windows then
          c.runtimeFuncsWin.map (fun n => ⟨n ++ "_addr", Linkage.hidden, some (Addr.ofFunc n)⟩)
            ++ [⟨"__julia_personality_addr", Linkage.hidden, some Addr.null⟩]
        else [])
    ++ c.codegenFuncs.map (fun n => ⟨n ++ "_addr", Linkage.hidden, some (Addr.ofFunc n)⟩)

/-- Lines 50-52: `JL_DLLEXPORT anonfunc * name##_addr;` over the
`JL_RUNTIME_EXPORTED_FUNC_ADDRS` list: exported, with no initializer. -/
def addrSlotDecls (c : ExportConfig) : List SlotDef :=
  c.runtimeFuncAddrs.map (fun n => ⟨n ++ "_addr", Linkage.exported, none⟩)

/-- All function-pointer slots emitted by the header (the hidden block of
lines 40-48 followed by the exported block of lines 50-52). -/
def allSlotDefs (c : ExportConfig) : List SlotDef :=
  slotDefs c ++ addrSlotDecls c

/-- Every symbol name the header emits with `JL_DLLEXPORT` linkage. -/
def exportedSymbols (c : ExportConfig) : List String :=
  (dataPointerDecls c).map VarDecl.name
    ++ (dataSymbolDecls c).map VarDecl.name
    ++ (stackChkGuardDecls c).map VarDecl.name
    ++ funcDecls c
    ++ (allSlotDefs c).filterMap
        (fun s => if s.linkage = Linkage.exported then some s.slotName else none)

/-- Lines 55-64: `jl_runtime_exported_func_names`, built with
`XX(name) = #name,`: the runtime-exported names, then (under
`_OS_WINDOWS_`) the Windows names and the hard-coded
`"__julia_personality@16"`, then the `JL_RUNTIME_EXPORTED_FUNC_ADDRS`
names, then the `NULL` sentinel (modelled as `none`). -/
def jl_runtime_exported_func_names (c : ExportConfig) : List (Option String) :=
  c.runtimeFuncs.map some
    ++ (if c.windows then
          c.runtimeFuncsWin.map some ++ [some "__julia_personality@16"]
        else [])
    ++ c.runtimeFuncAddrs.map some
    ++ [none]

/-- Lines 66-71: `jl_codegen_exported_func_names`, built with
`XX(name) = #name"_impl",`: each codegen-exported name with the literal
`"_impl"` suffix appended, then the `NULL` sentinel. -/
def jl_codegen_exported_func_names (c : ExportConfig) : List (Option String) :=
  c.codegenFuncs.map (fun n => some (n ++ "_impl")) ++ [none]

/-- Lines 73-82: `jl_runtime_exported_func_addrs`, built with
`XX(name) = &name##_addr,`: a pointer to each slot.  An entry is modelled
as the name of the slot whose address is stored (`none` is `NULL`). -/
def jl_runtime_exported_func_addrs (c : ExportConfig) : List (Option String) :=
  c.runtimeFuncs.map (fun n => some (n ++ "_addr"))
    ++ (if c.windows then
          c.runtimeFuncsWin.map (fun n => some (n ++ "_addr"))
            ++ [some "__julia_personality_addr"]
        else [])
    ++ c.runtimeFuncAddrs.map (fun n => some (n ++ "_addr"))
    ++ [none]

/-- Lines 83-86: `jl_codegen_exported_func_addrs`, the same `XX` expanded
over the codegen-exported list, then the `NULL` sentinel. -/
def jl_codegen_exported_func_addrs (c : ExportConfig) : List (Option String) :=
  c.codegenFuncs.map (fun n => some (n ++ "_addr")) ++ [none]

/-- The index at which the `JL_RUNTIME_EXPORTED_FUNC_ADDRS` entries start
inside the runtime registries: after the primary list and, on Windows,
after the Windows list and the personality entry. -/
def runtimeAddrSlotOffset (c : ExportConfig) : Nat :=
  c.runtimeFuncs.length + (if c.windows then c.runtimeFuncsWin.length + 1 else 0)

/-- Spec-side pairing of the runtime registry: the (publicName, slotName)
entries, in order, that the two parallel runtime tables are projections
of.  Used to express the index-correspondence invariant. -/
def runtimeEntries (c : ExportConfig) : List (String × String) :=
  c.runtimeFuncs.map (fun n => (n, n ++ "_addr"))
    ++ (if c.windows then
          c.runtimeFuncsWin.map (fun n => (n, n ++ "_addr"))
            ++ [("__julia_personality@16", "__julia_personality_addr")]
        else [])
    ++ c.runtimeFuncAddrs.map (fun n => (n, n ++ "_addr"))

/-- Spec-side pairing of the codegen registry. -/
def codegenEntries (c : ExportConfig) : List (String × String) :=
  c.codegenFuncs.map (fun n => (n ++ "_impl", n ++ "_addr"))

/-- A small concrete Windows configuration used to instantiate theorems. -/
def sampleConfig : ExportConfig where
  dataPointers := ["jl_emptytuple"]
  dataPointersWin := []
  dataSymbols := ["jl_options"]
  dataSymbolsWin := []
  runtimeFuncs := ["jl_apply", "jl_gc_enable"]
  runtimeFuncsWin := ["jl_setjmp"]
  runtimeFuncAddrs := ["jl_excstack_state"]
  codegenFuncs := ["jl_box_int64"]
  windows := true
  haveSSP := false

/-- A small concrete non-Windows configuration. -/
def sampleConfigNoWin : ExportConfig where
  dataPointers := ["jl_emptytuple"]
  dataPointersWin := []
  dataSymbols := ["jl_options"]
  dataSymbolsWin := []
  runtimeFuncs := ["jl_apply", "jl_gc_enable"]
  runtimeFuncsWin := ["jl_setjmp"]
  runtimeFuncAddrs := ["jl_excstack_state"]
  codegenFuncs := ["jl_box_int64"]
  windows := false
  haveSSP := true

end JlExports

namespace JlExports

/-! ### Helper lemmas about indexing concatenated tables -/

/-- Indexing past a left block of known length lands in the right block. -/
theorem getElem?_append_offset {α : Type} {l : List α} (l' : List α) {k i : Nat}
    (hk : l.length = k) : (l ++ l')[k + i]? = l'[i]? := by
  subst hk
  rw [List.getElem?_append_right (Nat.le_add_right _ _)]
  congr 1
  omega

/-- Indexing exactly at the length of the left block gives the right
block's first element. -/
theorem getElem?_append_length {α : Type} {l : List α} (l' : List α) {k : Nat}
    (hk : l.length = k) : (l ++ l')[k]? = l'[0]? := by
  subst hk
  rw [List.getElem?_append_right (Nat.le_refl _)]
  simp

/-- Indexing a mapped block at an in-range index. -/
theorem getElem?_map_append {α β : Type} (f : α → β) (l : List α) (rest : List β)
    (i : Nat) (h : i < l.length) : (l.map f ++ rest)[i]? = some (f l[i]) := by
  rw [List.getElem?_append_left (by simpa using h), List.getElem?_map,
    List.getElem?_eq_getElem h]
  rfl

/-- The last element of a nonempty list ending in a singleton block. -/
theorem getLast?_cons_append {α : Type} (a : α) (l : List α) (b : α) :
    (a :: (l ++ [b])).getLast? = some b := by
  induction l generalizing a with
  | nil => rfl
  | cons x xs ih => rw [List.cons_append, List.getLast?_cons_cons]; exact ih x

/-! ### Structural decompositions of the runtime registries -/

/-- The part of the runtime name table before the
`JL_RUNTIME_EXPORTED_FUNC_ADDRS` entries. -/
def runtimeHeadNames (c : ExportConfig) : List (Option String) :=
  c.runtimeFuncs.map some
    ++ (if c.windows then
          c.runtimeFuncsWin.map some ++ [some "__julia_personality@16"]
        else [])

/-- The part of the runtime address table before the
`JL_RUNTIME_EXPORTED_FUNC_ADDRS` entries. -/
def runtimeHeadAddrs (c : ExportConfig) : List (Option String) :=
  c.runtimeFuncs.map (fun n => some (n ++ "_addr"))
    ++ (if c.windows then
          c.runtimeFuncsWin.map (fun n => some (n ++ "_addr"))
            ++ [some "__julia_personality_addr"]
        else [])

theorem runtime_names_split (c : ExportConfig) :
    jl_runtime_exported_func_names c
      = runtimeHeadNames c ++ (c.runtimeFuncAddrs.map some ++ [none]) := by
  simp [jl_runtime_exported_func_names, runtimeHeadNames, List.append_assoc]

theorem runtime_addrs_split (c : ExportConfig) :
    jl_runtime_exported_func_addrs c
      = runtimeHeadAddrs c ++ (c.runtimeFuncAddrs.map (fun n => some (n ++ "_addr")) ++ [none]) := by
  simp [jl_runtime_exported_func_addrs, runtimeHeadAddrs, List.append_assoc]

theorem runtimeHeadNames_length (c : ExportConfig) :
    (runtimeHeadNames c).length = runtimeAddrSlotOffset c := by
  cases hw : c.windows <;> simp [runtimeHeadNames, runtimeAddrSlotOffset, hw]

theorem runtimeHeadAddrs_length (c : ExportConfig) :
    (runtimeHeadAddrs c).length = runtimeAddrSlotOffset c := by
  cases hw : c.windows <;> simp [runtimeHeadAddrs, runtimeAddrSlotOffset, hw]

theorem runtime_names_win_split (c : ExportConfig) (hw : c.windows = true) :
    jl_runtime_exported_func_names c
      = c.runtimeFuncs.map some
        ++ (c.runtimeFuncsWin.map some
            ++ ([some "__julia_personality@16"]
                ++ (c.runtimeFuncAddrs.map some ++ [none]))) := by
  simp [jl_runtime_exported_func_names, hw, List.append_assoc]

theorem runtime_addrs_win_split (c : ExportConfig) (hw : c.windows = true) :
    jl_runtime_exported_func_addrs c
      = c.runtimeFuncs.map (fun n => some (n ++ "_addr"))
        ++ (c.runtimeFuncsWin.map (fun n => some (n ++ "_addr"))
            ++ ([some "__julia_personality_addr"]
                ++ (c.runtimeFuncAddrs.map (fun n => some (n ++ "_addr")) ++ [none]))) := by
  simp [jl_runtime_exported_func_addrs, hw, List.append_assoc]

end JlExports

namespace JlExports

/-! ### Claim theorems -/

/-- C1: for every name in the runtime-exported curated list, the generated
hidden slot `name_addr` carries the static initializer `&name`, i.e. its
initial currentTarget is the address of the function of the same name. -/
theorem c1_runtime_slot_initial_target (c : ExportConfig) (n : String)
    (h : n ∈ c.runtimeFuncs) :
    (⟨n ++ "_addr", Linkage.hidden, some (Addr.ofFunc n)⟩ : SlotDef) ∈ slotDefs c := by
  unfold slotDefs
  exact List.mem_append_left _ (List.mem_append_left _ (List.mem_map_of_mem _ h))

/-- Witness for C1 at a concrete configuration. -/
theorem c1_runtime_slot_initial_target_w :
    (⟨"jl_apply" ++ "_addr", Linkage.hidden, some (Addr.ofFunc "jl_apply")⟩ : SlotDef)
      ∈ slotDefs sampleConfig :=
  c1_runtime_slot_initial_target sampleConfig "jl_apply" (by decide)

/-- C2: for both registries the name table and the address table have the
same length, both tables are index-parallel projections of one ordered
entry list (index i in names corresponds to index i in addresses), and
the final element of each table is the NULL sentinel. -/
theorem c2_registry_parallel (c : ExportConfig) :
    (jl_runtime_exported_func_names c).length
      = (jl_runtime_exported_func_addrs c).length ∧
    (jl_codegen_exported_func_names c).length
      = (jl_codegen_exported_func_addrs c).length ∧
    jl_runtime_exported_func_names c
      = (runtimeEntries c).map (fun e => some e.1) ++ [none] ∧
    jl_runtime_exported_func_addrs c
      = (runtimeEntries c).map (fun e => some e.2) ++ [none] ∧
    jl_codegen_exported_func_names c
      = (codegenEntries c).map (fun e => some e.1) ++ [none] ∧
    jl_codegen_exported_func_addrs c
      = (codegenEntries c).map (fun e => some e.2) ++ [none] ∧
    (jl_runtime_exported_func_names c).getLast? = some none ∧
    (jl_runtime_exported_func_addrs c).getLast? = some none ∧
    (jl_codegen_exported_func_names c).getLast? = some none ∧
    (jl_codegen_exported_func_addrs c).getLast? = some none := by
  cases hw : c.windows <;>
    simp [jl_runtime_exported_func_names, jl_runtime_exported_func_addrs,
      jl_codegen_exported_func_names, jl_codegen_exported_func_addrs,
      runtimeEntries, codegenEntries, hw, List.append_assoc, Function.comp_def,
      getLast?_cons_append]

end JlExports

namespace JlExports

/-- C3: the registry entries appear exactly in the declaration order of the
originating curated lists: the primary runtime entries at their list
indices (in both parallel tables), the Windows-specific entries
concatenated directly after the primary entries, the address-slot entries
after those, the sentinel last; likewise the codegen entries at their
list indices.  No reordering occurs. -/
theorem c3_registry_declaration_order (c : ExportConfig) :
    (∀ i (h : i < c.runtimeFuncs.length),
        (jl_runtime_exported_func_names c)[i]? = some (some c.runtimeFuncs[i])) ∧
    (∀ i (h : i < c.runtimeFuncs.length),
        (jl_runtime_exported_func_addrs c)[i]?
          = some (some (c.runtimeFuncs[i] ++ "_addr"))) ∧
    (c.windows = true → ∀ i (h : i < c.runtimeFuncsWin.length),
        (jl_runtime_exported_func_names c)[c.runtimeFuncs.length + i]?
          = some (some c.runtimeFuncsWin[i])) ∧
    (c.windows = true → ∀ i (h : i < c.runtimeFuncsWin.length),
        (jl_runtime_exported_func_addrs c)[c.runtimeFuncs.length + i]?
          = some (some (c.runtimeFuncsWin[i] ++ "_addr"))) ∧
    (∀ i (h : i < c.runtimeFuncAddrs.length),
        (jl_runtime_exported_func_names c)[runtimeAddrSlotOffset c + i]?
          = some (some c.runtimeFuncAddrs[i])) ∧
    (∀ i (h : i < c.codegenFuncs.length),
        (jl_codegen_exported_func_names c)[i]?
          = some (some (c.codegenFuncs[i] ++ "_impl"))) ∧
    (jl_runtime_exported_func_names c)[runtimeAddrSlotOffset c
        + c.runtimeFuncAddrs.length]? = some none ∧
    (jl_codegen_exported_func_names c)[c.codegenFuncs.length]? = some none := by
  refine ⟨?_, ?_, ?_, ?_, ?_, ?_, ?_, ?_⟩
  · intro i h
    unfold jl_runtime_exported_func_names
    rw [List.append_assoc, List.append_assoc]
    exact getElem?_map_append some _ _ i h
  · intro i h
    unfold jl_runtime_exported_func_addrs
    rw [List.append_assoc, List.append_assoc]
    exact getElem?_map_append _ _ _ i h
  · intro hw i h
    rw [runtime_names_win_split c hw, getElem?_append_offset _ (by simp)]
    exact getElem?_map_append some _ _ i h
  · intro hw i h
    rw [runtime_addrs_win_split c hw, getElem?_append_offset _ (by simp)]
    exact getElem?_map_append _ _ _ i h
  · intro i h
    rw [runtime_names_split c, getElem?_append_offset _ (runtimeHeadNames_length c)]
    exact getElem?_map_append some _ _ i h
  · intro i h
    unfold jl_codegen_exported_func_names
    exact getElem?_map_append _ _ _ i h
  · rw [runtime_names_split c, getElem?_append_offset _ (runtimeHeadNames_length c),
      getElem?_append_length _ (by simp)]
    rfl
  · unfold jl_codegen_exported_func_names
    rw [getElem?_append_length _ (by simp)]
    rfl

/-- Witness for C3 at a concrete Windows configuration: the first primary
entry sits at index 0 and the first Windows entry directly after the
primary entries. -/
theorem c3_registry_declaration_order_w :
    (jl_runtime_exported_func_names sampleConfig)[0]? = some (some "jl_apply") ∧
    (jl_runtime_exported_func_names sampleConfig)[sampleConfig.runtimeFuncs.length + 0]?
      = some (some "jl_setjmp") := by
  exact ⟨(c3_registry_declaration_order sampleConfig).1 0 (by decide),
    (c3_registry_declaration_order sampleConfig).2.2.1 rfl 0 (by decide)⟩

/-- C4: the codegen registry's names are exactly the curated codegen names
with the fixed "_impl" suffix appended, in order; every non-sentinel entry
of the runtime registry is an untransformed curated name (or the fixed
decorated personality string) — no other category receives the suffix. -/
theorem c4_impl_suffix (c : ExportConfig) :
    jl_codegen_exported_func_names c
      = c.codegenFuncs.map (fun n => some (n ++ "_impl")) ++ [none] ∧
    ∀ s : String, some s ∈ jl_runtime_exported_func_names c →
      s ∈ c.runtimeFuncs ∨ s ∈ c.runtimeFuncsWin ∨
        s = "__julia_personality@16" ∨ s ∈ c.runtimeFuncAddrs := by
  refine ⟨rfl, ?_⟩
  intro s hs
  cases hw : c.windows <;>
    simp [jl_runtime_exported_func_names, hw] at hs <;> tauto

/-- Witness for C4: the address-slot category name appears untransformed. -/
theorem c4_impl_suffix_w :
    "jl_excstack_state" ∈ sampleConfig.runtimeFuncs ∨
    "jl_excstack_state" ∈ sampleConfig.runtimeFuncsWin ∨
    "jl_excstack_state" = "__julia_personality@16" ∨
    "jl_excstack_state" ∈ sampleConfig.runtimeFuncAddrs :=
  (c4_impl_suffix sampleConfig).2 "jl_excstack_state" (by decide)

end JlExports

namespace JlExports

/-- C5 counterexample: in a configuration without a toolchain stack guard
(HAVE_SSP undefined), the fallback `__stack_chk_guard` the header defines
carries `JL_DLLEXPORT` (exported) linkage — it is among the exported
symbols and no emitted guard declaration is hidden — contradicting the
claim that the fallback has internal visibility. -/
theorem c5_guard_exported_cex :
    sampleConfig.haveSSP = false ∧
    stackChkGuardDecls sampleConfig
      = [⟨"__stack_chk_guard", Linkage.exported⟩] ∧
    (∀ d ∈ stackChkGuardDecls sampleConfig, d.linkage ≠ Linkage.hidden) ∧
    "__stack_chk_guard" ∈ exportedSymbols sampleConfig := by
  refine ⟨rfl, rfl, ?_, ?_⟩ <;> decide

/-- C5 (amended): when the host toolchain does not provide a
stack-protection guard symbol (HAVE_SSP undefined), the fallback
`__stack_chk_guard` is defined — but with exported (JL_DLLEXPORT)
linkage, not internal visibility; with HAVE_SSP defined, no fallback is
emitted. -/
theorem c5_guard_fallback (c : ExportConfig) :
    (c.haveSSP = false →
      (⟨"__stack_chk_guard", Linkage.exported⟩ : VarDecl) ∈ stackChkGuardDecls c ∧
      "__stack_chk_guard" ∈ exportedSymbols c) ∧
    (c.haveSSP = true → stackChkGuardDecls c = []) := by
  constructor
  · intro h
    refine ⟨by simp [stackChkGuardDecls, h], ?_⟩
    simp [exportedSymbols, stackChkGuardDecls, h]
  · intro h
    simp [stackChkGuardDecls, h]

/-- Witness for the amended C5 at a concrete configuration. -/
theorem c5_guard_fallback_w :
    (⟨"__stack_chk_guard", Linkage.exported⟩ : VarDecl)
        ∈ stackChkGuardDecls sampleConfig ∧
    "__stack_chk_guard" ∈ exportedSymbols sampleConfig :=
  (c5_guard_fallback sampleConfig).1 rfl

/-- C6 counterexample: `jl_apply` is a runtime-exported function of the
sample configuration, yet its slot symbol `jl_apply_addr` is not among
the exported symbols, and every emitted slot of that name has hidden
linkage — contradicting the claim that `F_addr` is itself exported. -/
theorem c6_slot_not_exported_cex :
    "jl_apply" ∈ sampleConfig.runtimeFuncs ∧
    "jl_apply_addr" ∉ exportedSymbols sampleConfig ∧
    ∀ s ∈ allSlotDefs sampleConfig, s.slotName = "jl_apply_addr" →
      s.linkage = Linkage.hidden := by
  refine ⟨by decide, by decide, by decide⟩

/-- C6 (amended): for every runtime-exported-function name F, the slot
F_addr is emitted with hidden (internal) linkage, initialized to &F, and
its address is exposed to the runtime patcher only through the `&F_addr`
entry of the runtime address registry, not by exporting the F_addr symbol
itself. -/
theorem c6_slot_hidden_registry (c : ExportConfig) (n : String)
    (h : n ∈ c.runtimeFuncs) :
    (⟨n ++ "_addr", Linkage.hidden, some (Addr.ofFunc n)⟩ : SlotDef) ∈ slotDefs c ∧
    some (n ++ "_addr") ∈ jl_runtime_exported_func_addrs c := by
  constructor
  · unfold slotDefs
    exact List.mem_append_left _ (List.mem_append_left _ (List.mem_map_of_mem _ h))
  · unfold jl_runtime_exported_func_addrs
    exact List.mem_append_left _
      (List.mem_append_left _ (List.mem_append_left _ (List.mem_map_of_mem _ h)))

/-- Witness for the amended C6 at a concrete configuration. -/
theorem c6_slot_hidden_registry_w :
    (⟨"jl_gc_enable" ++ "_addr", Linkage.hidden,
        some (Addr.ofFunc "jl_gc_enable")⟩ : SlotDef) ∈ slotDefs sampleConfig ∧
    some ("jl_gc_enable" ++ "_addr") ∈ jl_runtime_exported_func_addrs sampleConfig :=
  c6_slot_hidden_registry sampleConfig "jl_gc_enable" (by decide)

/-- C7: every `JL_RUNTIME_EXPORTED_FUNC_ADDRS` descriptor's slot
`name_addr` is emitted directly exported (JL_DLLEXPORT) with no
initializer, and the slot symbol appears among the exported symbols. -/
theorem c7_addr_slot_exported (c : ExportConfig) (n : String)
    (h : n ∈ c.runtimeFuncAddrs) :
    (⟨n ++ "_addr", Linkage.exported, none⟩ : SlotDef) ∈ addrSlotDecls c ∧
    (n ++ "_addr") ∈ exportedSymbols c := by
  constructor
  · exact List.mem_map_of_mem _ h
  · unfold exportedSymbols
    refine List.mem_append_right _ (List.mem_filterMap.2
      ⟨⟨n ++ "_addr", Linkage.exported, none⟩, ?_, by simp⟩)
    exact List.mem_append_right _ (List.mem_map_of_mem _ h)

/-- Witness for C7 at a concrete configuration. -/
theorem c7_addr_slot_exported_w :
    (⟨"jl_excstack_state" ++ "_addr", Linkage.exported, none⟩ : SlotDef)
        ∈ addrSlotDecls sampleConfig ∧
    ("jl_excstack_state" ++ "_addr") ∈ exportedSymbols sampleConfig :=
  c7_addr_slot_exported sampleConfig "jl_excstack_state" (by decide)

end JlExports

namespace JlExports

/-- C8: on Windows the exception-personality routine's slot is emitted
hidden with an explicit NULL initializer (deferred population), and the
runtime registry carries the hard-coded decorated name
"__julia_personality@16" at the index right after the Windows function
entries, paired with the personality slot's address. -/
theorem c8_personality_special (c : ExportConfig) (hw : c.windows = true) :
    (⟨"__julia_personality_addr", Linkage.hidden, some Addr.null⟩ : SlotDef)
      ∈ slotDefs c ∧
    (jl_runtime_exported_func_names c)[c.runtimeFuncs.length
        + c.runtimeFuncsWin.length]? = some (some "__julia_personality@16") ∧
    (jl_runtime_exported_func_addrs c)[c.runtimeFuncs.length
        + c.runtimeFuncsWin.length]? = some (some "__julia_personality_addr") := by
  refine ⟨?_, ?_, ?_⟩
  · unfold slotDefs
    rw [hw]
    exact List.mem_append_left _ (List.mem_append_right _
      (by rw [if_pos rfl]; exact List.mem_append_right _ (List.mem_singleton.2 rfl)))
  · rw [runtime_names_win_split c hw, getElem?_append_offset _ (by simp),
      getElem?_append_length _ (by simp)]
    simp
  · rw [runtime_addrs_win_split c hw, getElem?_append_offset _ (by simp),
      getElem?_append_length _ (by simp)]
    simp

/-- Witness for C8 at a concrete Windows configuration. -/
theorem c8_personality_special_w :
    (⟨"__julia_personality_addr", Linkage.hidden, some Addr.null⟩ : SlotDef)
      ∈ slotDefs sampleConfig ∧
    (jl_runtime_exported_func_names sampleConfig)[sampleConfig.runtimeFuncs.length
        + sampleConfig.runtimeFuncsWin.length]?
      = some (some "__julia_personality@16") ∧
    (jl_runtime_exported_func_addrs sampleConfig)[sampleConfig.runtimeFuncs.length
        + sampleConfig.runtimeFuncsWin.length]?
      = some (some "__julia_personality_addr") :=
  c8_personality_special sampleConfig rfl

/-- C9: every codegen-exported name n also receives a hidden indirection
slot `n_addr` whose initial target is the address of the ORIGINAL
(unsuffixed) symbol n — which differs from `n_impl` — and the codegen
address registry is a separate NULL-terminated table parallel to the
"_impl"-suffixed name registry. -/
theorem c9_codegen_slots (c : ExportConfig) :
    (∀ n ∈ c.codegenFuncs,
      (⟨n ++ "_addr", Linkage.hidden, some (Addr.ofFunc n)⟩ : SlotDef)
          ∈ slotDefs c ∧
      Addr.ofFunc n ≠ Addr.ofFunc (n ++ "_impl")) ∧
    jl_codegen_exported_func_names c
      = c.codegenFuncs.map (fun n => some (n ++ "_impl")) ++ [none] ∧
    jl_codegen_exported_func_addrs c
      = c.codegenFuncs.map (fun n => some (n ++ "_addr")) ++ [none] ∧
    (jl_codegen_exported_func_addrs c).getLast? = some none := by
  refine ⟨?_, rfl, rfl, by simp [jl_codegen_exported_func_addrs]⟩
  intro n hn
  constructor
  · unfold slotDefs
    exact List.mem_append_right _ (List.mem_map_of_mem _ hn)
  · intro heq
    have h1 : n = n ++ "_impl" := by
      injection heq
    have h2 := congrArg String.length h1
    rw [String.length_append] at h2
    have h3 : ("_impl" : String).length = 5 := rfl
    rw [h3] at h2
    omega

/-- Witness for C9 at a concrete configuration. -/
theorem c9_codegen_slots_w :
    (⟨"jl_box_int64" ++ "_addr", Linkage.hidden,
        some (Addr.ofFunc "jl_box_int64")⟩ : SlotDef) ∈ slotDefs sampleConfig ∧
    Addr.ofFunc "jl_box_int64" ≠ Addr.ofFunc ("jl_box_int64" ++ "_impl") :=
  (c9_codegen_slots sampleConfig).1 "jl_box_int64" (by decide)

/-- C10: the `JL_RUNTIME_EXPORTED_FUNC_ADDRS` entries are appended to the
runtime registries on every platform: for any configuration (Windows or
not) they occupy the indices starting right after the primary block —
which includes the Windows entries exactly when the platform is Windows —
and end right before the NULL sentinel. -/
theorem c10_addr_slots_unconditional (c : ExportConfig) :
    (∀ i (h : i < c.runtimeFuncAddrs.length),
      (jl_runtime_exported_func_names c)[runtimeAddrSlotOffset c + i]?
        = some (some c.runtimeFuncAddrs[i]) ∧
      (jl_runtime_exported_func_addrs c)[runtimeAddrSlotOffset c + i]?
        = some (some (c.runtimeFuncAddrs[i] ++ "_addr"))) ∧
    (jl_runtime_exported_func_names c)[runtimeAddrSlotOffset c
        + c.runtimeFuncAddrs.length]? = some none ∧
    (jl_runtime_exported_func_addrs c)[runtimeAddrSlotOffset c
        + c.runtimeFuncAddrs.length]? = some none ∧
    (c.windows = false → runtimeAddrSlotOffset c = c.runtimeFuncs.length) ∧
    (c.windows = true →
      runtimeAddrSlotOffset c
        = c.runtimeFuncs.length + (c.runtimeFuncsWin.length + 1)) := by
  refine ⟨?_, ?_, ?_, ?_, ?_⟩
  · intro i h
    constructor
    · rw [runtime_names_split c, getElem?_append_offset _ (runtimeHeadNames_length c)]
      exact getElem?_map_append some _ _ i h
    · rw [runtime_addrs_split c, getElem?_append_offset _ (runtimeHeadAddrs_length c)]
      exact getElem?_map_append _ _ _ i h
  · rw [runtime_names_split c, getElem?_append_offset _ (runtimeHeadNames_length c),
      getElem?_append_length _ (by simp)]
    rfl
  · rw [runtime_addrs_split c, getElem?_append_offset _ (runtimeHeadAddrs_length c),
      getElem?_append_length _ (by simp)]
    rfl
  · intro hw
    simp [runtimeAddrSlotOffset, hw]
  · intro hw
    simp [runtimeAddrSlotOffset, hw]

/-- Witness for C10 on a concrete non-Windows configuration: the first
address-slot entry sits right after the primary entries, and the offset
is exactly the primary list's length. -/
theorem c10_addr_slots_unconditional_w :
    (jl_runtime_exported_func_names sampleConfigNoWin)[runtimeAddrSlotOffset
        sampleConfigNoWin + 0]? = some (some "jl_excstack_state") ∧
    runtimeAddrSlotOffset sampleConfigNoWin
      = sampleConfigNoWin.runtimeFuncs.length := by
  exact ⟨((c10_addr_slots_unconditional sampleConfigNoWin).1 0 (by decide)).1,
    (c10_addr_slots_unconditional sampleConfigNoWin).2.2.2.1 rfl⟩

end JlExports
